import Mathlib

/-!
# WebAppPSL — cart aggregation and checkout total computation

A shallow embedding, in Lean 4, of the cart logic of the WebAppPSL
marketplace front-end:

* the cart operations `addToCart`, `changeQty`, `setQty`, `removeItem`,
  `removeMany`, `clearCart` and `handleAdd` of `src/App.jsx`;
* the totals derivation `computeTotals` of `src/pages/Cart.jsx`;
* the checkout control flow of `src/components/PaymentForm.jsx`
  (`handleSubmit`) composed with `src/pages/PayWall.jsx`
  (`handlePaymentSuccess`) and the `onOrderCompleted={clearCart}` wiring
  of `src/App.jsx`.

JavaScript runtime values that flow through this code (item fields,
quantities, deltas, keys) are modelled by the inductive type `JVal`:
`undefined`, `null`, `NaN`, finite numbers and strings.  IEEE-754
doubles are idealised as exact rationals (`ℚ`); `NaN` is kept as a
separate constructor because the code's `Number(...)` coercions can
produce it.  The JavaScript coercion operators actually used by the
source (`||`, `??`, `===`, `Number(...)`, `String(...)`, `+`, `*`,
`>`, `<=`, `Math.max`) are modelled individually below.

For non-integer numbers, `String(...)` is modelled by a
`numerator/denominator` rendering; real JavaScript prints a decimal
expansion instead.  Both renderings agree on integers and both are
distinct from every pure-digit-string produced by an integer, which is
the only regime the theorems below rely on.
-/

namespace PSL

/-- A JavaScript runtime value, restricted to the shapes that flow
through the cart code: `undefined`, `null`, `NaN`, finite numbers
(idealised as rationals) and strings. -/
inductive JVal where
  | undef
  | jnull
  | nan
  | num (x : ℚ)
  | str (s : String)
deriving DecidableEq, Repr

/-- JavaScript truthiness: `undefined`, `null`, `NaN`, `0` and `""`
are falsy, every other modelled value is truthy. -/
def truthy : JVal → Bool
  | .undef => false
  | .jnull => false
  | .nan => false
  | .num x => x ≠ 0
  | .str s => s ≠ ""

/-- JavaScript `a ?? b` (nullish coalescing): returns `b` exactly when
`a` is `undefined` or `null`. -/
def coalesce : JVal → JVal → JVal
  | .undef, b => b
  | .jnull, b => b
  | a, _ => a

/-- JavaScript `a || b`: returns `a` when truthy, else `b`. -/
def jor (a b : JVal) : JVal :=
  if truthy a then a else b

/-- Digit-list value: `some n` when the list is nonempty and all
characters are decimal digits. -/
def digitsVal (cs : List Char) : Option Nat :=
  if cs.isEmpty then none
  else if cs.all Char.isDigit then
    some (cs.foldl (fun a c => a * 10 + (c.toNat - 48)) 0)
  else none

/-- Unsigned decimal literal: digits with an optional single dot
(`"12"`, `"12.5"`, `".5"`, `"5."`). -/
def parseDecCore (cs : List Char) : Option ℚ :=
  let intPart := cs.takeWhile (fun c => c ≠ '.')
  let rest := cs.dropWhile (fun c => c ≠ '.')
  match rest with
  | [] =>
    match digitsVal intPart with
    | some n => some (n : ℚ)
    | none => none
  | _ :: frac =>
    if frac.any (fun c => ¬ c.isDigit) then none
    else
      match intPart.isEmpty, frac.isEmpty with
      | true, true => none
      | true, false =>
        (digitsVal frac).map (fun n => (n : ℚ) / 10 ^ frac.length)
      | false, true =>
        (digitsVal intPart).map (fun n => (n : ℚ))
      | false, false =>
        match digitsVal intPart, digitsVal frac with
        | some a, some b => some ((a : ℚ) + (b : ℚ) / 10 ^ frac.length)
        | _, _ => none

/-- Whitespace characters stripped by JavaScript's `Number(string)`
before parsing. -/
def jsWhite (c : Char) : Bool :=
  c == ' ' || c == '\t' || c == '\n' || c == '\r'

/-- JavaScript `Number(string)`: blank strings give `0`, decimal
literals (with optional sign) give their value, anything else `NaN`. -/
def parseNum (s : String) : JVal :=
  let t := ((s.data.dropWhile jsWhite).reverse.dropWhile jsWhite).reverse
  if t.isEmpty then .num 0
  else
    match t with
    | '-' :: rest =>
      match parseDecCore rest with
      | some q => .num (-q)
      | none => .nan
    | '+' :: rest =>
      match parseDecCore rest with
      | some q => .num q
      | none => .nan
    | cs =>
      match parseDecCore cs with
      | some q => .num q
      | none => .nan

/-- JavaScript `Number(v)`.  The result is always `num _` or `nan`. -/
def toNum : JVal → JVal
  | .undef => .nan
  | .jnull => .num 0
  | .nan => .nan
  | .num x => .num x
  | .str s => parseNum s

/-- JavaScript `String(v)`.  Integers print as decimal integers;
non-integer rationals use a `numerator/denominator` rendering (real JS
prints a decimal expansion; both contain a non-digit character, which
is all the development relies on for them). -/
def jsToString : JVal → String
  | .undef => "undefined"
  | .jnull => "null"
  | .nan => "NaN"
  | .str s => s
  | .num x =>
    if x.den = 1 then toString x.num
    else toString x.num ++ "/" ++ toString x.den

/-- JavaScript strict equality `===` on the modelled values: equal
only within one type, and `NaN === NaN` is `false`. -/
def strictEq : JVal → JVal → Bool
  | .undef, .undef => true
  | .jnull, .jnull => true
  | .num x, .num y => x = y
  | .str s, .str t => s = t
  | _, _ => false

/-- JavaScript `a + b` on the modelled values: string concatenation if
either side is a string, else numeric addition with `NaN`
propagation. -/
def jsAdd (a b : JVal) : JVal :=
  match a, b with
  | .str s, b => .str (s ++ jsToString b)
  | a, .str t => .str (jsToString a ++ t)
  | a, b =>
    match toNum a, toNum b with
    | .num x, .num y => .num (x + y)
    | _, _ => .nan

/-- JavaScript `a * b`: numeric multiplication with `NaN`
propagation (strings coerce through `Number`). -/
def jsMul (a b : JVal) : JVal :=
  match toNum a, toNum b with
  | .num x, .num y => .num (x * y)
  | _, _ => .nan

/-- JavaScript numeric `a > b` (as used on numbers in the source):
`false` whenever a side coerces to `NaN`. -/
def jsGt (a b : JVal) : Bool :=
  match toNum a, toNum b with
  | .num x, .num y => y < x
  | _, _ => false

/-- JavaScript numeric `a <= b` (as used in `addToCart`'s
`qty <= 0`): `false` whenever a side coerces to `NaN`. -/
def jsLe (a b : JVal) : Bool :=
  match toNum a, toNum b with
  | .num x, .num y => x ≤ y
  | _, _ => false

/-- JavaScript `Math.max(0, v)`: `NaN` stays `NaN`, otherwise the
maximum of `0` and the numeric coercion of `v`. -/
def jmax0 (v : JVal) : JVal :=
  match toNum v with
  | .num x => .num (max 0 x)
  | _ => .nan

/-- `true` exactly on finite numbers. -/
def isNum : JVal → Bool
  | .num _ => true
  | _ => false

/-- Projection to the rational carried by a finite number (`0` on
every other shape). -/
def numVal : JVal → ℚ
  | .num x => x
  | _ => 0

/-- One cart line / product descriptor, with the object fields the
source reads or writes (`src/App.jsx`): `id`, `name`, `price`,
`image_url`, `imageUrl`, `description`, `qty`.  Absent fields are
`JVal.undef`. -/
structure Item where
  id : JVal
  name : JVal
  price : JVal
  image_url : JVal
  imageUrl : JVal
  description : JVal
  qty : JVal
deriving DecidableEq, Repr

/-- The line key `x.id ?? x.name` used throughout `src/App.jsx` and as
`keyOf` in `src/pages/Cart.jsx`. -/
def keyOf (x : Item) : JVal :=
  coalesce x.id x.name

/-- The default parameter `qty = 1` of `addToCart(item, qty = 1)`:
a JavaScript default parameter replaces exactly an `undefined`
argument (an omitted argument is `undefined`); a `null` argument does
not trigger it. -/
def qtyDefault : JVal → JVal
  | .undef => .num 1
  | q => q

/-- `addToCart(item, qty = 1)` from `src/App.jsx` (lines 41–64): the
`qty` argument is first put through the default parameter
(`qtyDefault`); then, on an existing key,
`nextQty = Math.max(0, Number(copy[i].qty || 1) + Number(qty || 0))`,
splicing the line out when `nextQty === 0`; on a missing key, a
`qty <= 0` call returns the previous list unchanged and otherwise
`{ ...item, qty: Number(qty) }` is appended.  (The `if (!item)
return;` guard is outside the model: the embedding is applied to
actual item objects.) -/
def addToCart (item : Item) (qtyArg : JVal) (prev : List Item) : List Item :=
  let qty := qtyDefault qtyArg
  let id := coalesce item.id item.name
  match prev.findIdx? (fun x => strictEq (keyOf x) id) with
  | some i =>
    match prev[i]? with
    | some cur =>
      let nextQty :=
        jmax0 (jsAdd (toNum (jor cur.qty (.num 1))) (toNum (jor qty (.num 0))))
      if strictEq nextQty (.num 0) then prev.eraseIdx i
      else prev.set i { cur with qty := nextQty }
    | none => prev
  | none =>
    if jsLe qty (.num 0) then prev
    else prev ++ [{ item with qty := toNum qty }]

/-- `changeQty(id, delta)` from `src/App.jsx` (lines 67–79): no-op on
a falsy `id` or `delta`; otherwise maps the matching line to
`{ ...x, qty: Math.max(0, Number(x.qty || 1) + Number(delta)) }` and
then filters on `Number(x.qty || 1) > 0`. -/
def changeQty (id delta : JVal) (prev : List Item) : List Item :=
  if truthy id && truthy delta then
    (prev.map (fun x =>
      if strictEq (keyOf x) id then
        { x with qty := jmax0 (jsAdd (toNum (jor x.qty (.num 1))) (toNum delta)) }
      else x)).filter (fun x => jsGt (toNum (jor x.qty (.num 1))) (.num 0))
  else prev

/-- `setQty(id, qty)` from `src/App.jsx` (lines 82–92): maps the
matching line to `{ ...x, qty: Math.max(0, Number(qty || 0)) }` and
then filters on `Number(x.qty || 1) > 0` (no falsy-argument guard in
the source). -/
def setQty (id qty : JVal) (prev : List Item) : List Item :=
  (prev.map (fun x =>
    if strictEq (keyOf x) id then
      { x with qty := jmax0 (toNum (jor qty (.num 0))) }
    else x)).filter (fun x => jsGt (toNum (jor x.qty (.num 1))) (.num 0))

/-- `removeItem(id)` from `src/App.jsx` (lines 95–97): keeps the lines
whose key is not strictly equal (`!==`) to `id`. -/
def removeItem (id : JVal) (prev : List Item) : List Item :=
  prev.filter (fun x => ! strictEq (keyOf x) id)

/-- `removeMany(ids = [])` from `src/App.jsx` (lines 100–106): returns
immediately when `ids` is empty, otherwise drops every line whose
`String(x.id ?? x.name)` belongs to `new Set(ids.map(String))`, in one
state update. -/
def removeMany (ids : List JVal) (prev : List Item) : List Item :=
  if ids.length = 0 then prev
  else
    let setIds := ids.map jsToString
    prev.filter (fun x => ! setIds.contains (jsToString (keyOf x)))

/-- `clearCart()` from `src/App.jsx` (line 109). -/
def clearCart (_prev : List Item) : List Item := []

/-- `handleAdd(product)` from `src/App.jsx` (lines 117–138): on an
existing key, `{ ...p, qty: (p.qty || 1) + 1 }`; otherwise appends a
normalized line with `price: Number(product.price) || 0`,
`image_url: product.image_url || product.imageUrl || null`,
`description: product.description || ""` and `qty: 1`. -/
def handleAdd (product : Item) (prev : List Item) : List Item :=
  let key := coalesce product.id product.name
  match prev.find? (fun p => strictEq (keyOf p) key) with
  | some _ =>
    prev.map (fun p =>
      if strictEq (keyOf p) key then
        { p with qty := jsAdd (jor p.qty (.num 1)) (.num 1) }
      else p)
  | none =>
    prev ++ [{
      id := product.id,
      name := product.name,
      price := jor (toNum product.price) (.num 0),
      image_url := jor product.image_url (jor product.imageUrl .jnull),
      imageUrl := .undef,
      description := jor product.description (.str ""),
      qty := .num 1 }]

/-- The record returned by `computeTotals` of `src/pages/Cart.jsx`
(lines 81–93). -/
structure Totals where
  lines : List Item
  subtotal : JVal
  tva : JVal
  shipping : JVal
  total : JVal
deriving Repr

/-- The line normalization `{ ...it, qty: Number(it.qty || 1), price:
Number(it.price || 0) }` mapped over the items by `computeTotals` of
`src/pages/Cart.jsx`. -/
def normLine (it : Item) : Item :=
  { it with qty := toNum (jor it.qty (.num 1)),
            price := toNum (jor it.price (.num 0)) }

/-- `computeTotals(items = [])` from `src/pages/Cart.jsx` (lines
81–93): normalizes each line with `qty: Number(it.qty || 1)` and
`price: Number(it.price || 0)` (see `normLine`), folds
`acc + it.price * it.qty` from `0`, takes `tva = subtotal * 0.2`,
`shipping = subtotal > 100 ? 0 : 6.9` and
`total = subtotal + tva + shipping`. -/
def computeTotals (items : List Item) : Totals :=
  let lines := items.map normLine
  let subtotal := lines.foldl (fun acc it => jsAdd acc (jsMul it.price it.qty)) (.num 0)
  let tvaRate : ℚ := 1 / 5
  let tva := jsMul subtotal (.num tvaRate)
  let shipping := if jsGt subtotal (.num 100) then JVal.num 0 else JVal.num (69 / 10)
  let total := jsAdd (jsAdd subtotal tva) shipping
  { lines := lines, subtotal := subtotal, tva := tva,
    shipping := shipping, total := total }

/-- The card fields of the `PaymentForm` state
(`src/components/PaymentForm.jsx`). -/
structure CardForm where
  cardName : String
  cardNumber : String
  expiry : String
  cvc : String

/-- The outcome of the `fetch("…/order.php")` call as observed by
`handleSubmit`: `ok` is `res.ok` (success HTTP status) and `dataOk` is
the `ok` field of the parsed JSON body (`JVal.undef` when absent). -/
structure OrderResponse where
  ok : Bool
  dataOk : JVal

/-- The checkout control flow: `handleSubmit` of
`src/components/PaymentForm.jsx` (lines 75–155) composed with
`handlePaymentSuccess` of `src/pages/PayWall.jsx` (lines 75–86) and
the `<PayWall onOrderCompleted={clearCart} />` wiring of `src/App.jsx`
(line 335).  Returns the cart after the submit together with a flag
telling whether `onPaid` ran (order completed).  The guards reproduce
the source: empty card fields, a falsy `userId`, an empty `items` list
or a falsy `total` abort before the network call; a non-success HTTP
status (`!res.ok`) or a falsy `data.ok` raise into the `catch` block,
which only sets an error message — in all those cases the cart is
returned untouched.  Only the success path reaches
`onPaid → handlePaymentSuccess → onOrderCompleted = clearCart`. -/
def checkoutSubmit (form : CardForm) (userId : JVal) (items : List Item)
    (total : JVal) (resp : OrderResponse) (cart : List Item) :
    List Item × Bool :=
  if form.cardName = "" || form.cardNumber = "" || form.expiry = "" || form.cvc = "" then
    (cart, false)
  else if ! truthy userId then
    (cart, false)
  else if items.length = 0 || ! truthy total then
    (cart, false)
  else if ! resp.ok then
    (cart, false)
  else if ! truthy resp.dataOk then
    (cart, false)
  else
    (clearCart cart, true)

/-! ## Specification-side derived quantities

`linePrice`, `lineQty` and `subtotalSpec` restate the spec's totals
formulas ("subtotal = Σ(unitPrice × quantity)") as plain rational
arithmetic over the normalized field values, to be compared against
the `computeTotals` embedding above. -/

/-- The rational carried by a line's normalized price
`Number(it.price || 0)` (0 when the coercion yields `NaN`). -/
def linePrice (x : Item) : ℚ :=
  numVal (toNum (jor x.price (.num 0)))

/-- The rational carried by a line's normalized quantity
`Number(it.qty || 1)` (0 when the coercion yields `NaN`). -/
def lineQty (x : Item) : ℚ :=
  numVal (toNum (jor x.qty (.num 1)))

/-- Spec formula: subtotal = Σ (unitPrice × quantity) over all items. -/
def subtotalSpec (items : List Item) : ℚ :=
  (items.map (fun x => linePrice x * lineQty x)).sum

/-- Every line's price and quantity coerce to finite numbers (no
`NaN`), so the rational projections are faithful. -/
def NumericLines (items : List Item) : Prop :=
  ∀ x ∈ items, isNum (toNum (jor x.price (.num 0))) = true ∧
    isNum (toNum (jor x.qty (.num 1))) = true

/-! ## Sample items used in concrete scenarios -/

/-- A line `{ id: 1, name: "A", price: 10, qty: 1 }`. -/
def itemA : Item :=
  { id := .num 1, name := .str "A", price := .num 10,
    image_url := .jnull, imageUrl := .undef, description := .str "", qty := .num 1 }

/-- The product descriptor `{ id: 7, name: "X", price: 10 }` of the
round-trip scenario. -/
def prod7 : Item :=
  { id := .num 7, name := .str "X", price := .num 10,
    image_url := .undef, imageUrl := .undef, description := .str "", qty := .undef }

/-- The product descriptor `{ name: "Widget", price: 5 }`, with no
`id`. -/
def widget : Item :=
  { id := .undef, name := .str "Widget", price := .num 5,
    image_url := .undef, imageUrl := .undef, description := .str "", qty := .undef }

/-- The cart line `handleAdd` builds after adding `widget` twice. -/
def widgetLine2 : Item :=
  { id := .undef, name := .str "Widget", price := .num 5,
    image_url := .jnull, imageUrl := .undef, description := .str "", qty := .num 2 }

/-- A product descriptor whose `price` is the non-numeric string
`"abc"`. -/
def pAbc : Item :=
  { id := .num 1, name := .str "P", price := .str "abc",
    image_url := .undef, imageUrl := .undef, description := .str "", qty := .undef }

/-- A line keyed by the number `n`. -/
def itemK (n : ℚ) : Item :=
  { id := .num n, name := .str "K", price := .num 1,
    image_url := .undef, imageUrl := .undef, description := .str "", qty := .num 1 }

/-! ## Helper lemmas -/

/-- A value satisfying `isNum` is the number it projects to. -/
theorem isNum_eq_num {v : JVal} (h : isNum v = true) : v = .num (numVal v) := by
  cases v <;> simp [isNum, numVal] at h ⊢

/-- `String(…)` of small integer keys. -/
theorem jsToString_num_one : jsToString (.num 1) = "1" := by decide

/-- `String(…)` of small integer keys. -/
theorem jsToString_num_two : jsToString (.num 2) = "2" := by decide

/-- `String(…)` of small integer keys. -/
theorem jsToString_num_three : jsToString (.num 3) = "3" := by decide

/-- The shipping fee of `computeTotals` is the strict-`>` ternary on
its own subtotal. -/
theorem computeTotals_shipping_eq (items : List Item) :
    (computeTotals items).shipping =
      if jsGt (computeTotals items).subtotal (.num 100) then JVal.num 0
      else JVal.num (69 / 10) := rfl

/-- The TVA of `computeTotals` is `subtotal * 0.2`. -/
theorem computeTotals_tva_eq (items : List Item) :
    (computeTotals items).tva = jsMul (computeTotals items).subtotal (.num (1 / 5)) := rfl

/-- The total of `computeTotals` is `subtotal + tva + shipping`. -/
theorem computeTotals_total_eq (items : List Item) :
    (computeTotals items).total =
      jsAdd (jsAdd (computeTotals items).subtotal (computeTotals items).tva)
        (computeTotals items).shipping := rfl

/-- Folding `acc + price * qty` over lines whose prices and
quantities are finite numbers adds up the corresponding rationals. -/
theorem foldl_jsAdd_mul (ls : List Item) (a : ℚ)
    (h : ∀ x ∈ ls, isNum x.price = true ∧ isNum x.qty = true) :
    ls.foldl (fun acc it => jsAdd acc (jsMul it.price it.qty)) (JVal.num a) =
      JVal.num (a + ((ls.map (fun x => numVal x.price * numVal x.qty)).sum)) := by
  induction ls generalizing a with
  | nil => simp
  | cons hd tl ih =>
    obtain ⟨hp, hq⟩ := h hd (List.mem_cons_self hd tl)
    have step : jsAdd (JVal.num a) (jsMul hd.price hd.qty) =
        JVal.num (a + numVal hd.price * numVal hd.qty) := by
      rw [isNum_eq_num hp, isNum_eq_num hq]
      simp [jsAdd, jsMul, toNum, numVal]
    have htl := ih (a + numVal hd.price * numVal hd.qty)
      (fun x hx => h x (List.mem_cons_of_mem _ hx))
    simp only [List.foldl_cons, List.map_cons, List.sum_cons, step, htl]
    ring_nf

/-- Under `NumericLines`, the subtotal computed by `computeTotals` is
the spec's `Σ (unitPrice × quantity)`. -/
theorem computeTotals_subtotal (items : List Item) (h : NumericLines items) :
    (computeTotals items).subtotal = .num (subtotalSpec items) := by
  have h' : ∀ x ∈ items.map normLine, isNum x.price = true ∧ isNum x.qty = true := by
    intro x hx
    obtain ⟨y, hy, rfl⟩ := List.mem_map.mp hx
    exact ⟨(h y hy).1, (h y hy).2⟩
  have hfold := foldl_jsAdd_mul (items.map normLine) 0 h'
  calc (computeTotals items).subtotal
      = (items.map normLine).foldl (fun acc it => jsAdd acc (jsMul it.price it.qty))
          (.num 0) := rfl
    _ = JVal.num (0 + ((items.map normLine).map
          (fun x => numVal x.price * numVal x.qty)).sum) := hfold
    _ = .num (subtotalSpec items) := by
        rw [List.map_map]
        have hcomp : ((fun x => numVal x.price * numVal x.qty) ∘ normLine) =
            fun y => linePrice y * lineQty y := by
          funext y
          simp [normLine, linePrice, lineQty, Function.comp]
        rw [hcomp, zero_add]
        rfl

/-- `changeQty`'s trailing filter `Number(x.qty || 1) > 0` accepts
every line whose `qty` was just written by `Math.max(0, …)`: a zero or
`NaN` quantity falls back to `1` in the test. -/
theorem filter_accepts_jmax0 (v : JVal) :
    jsGt (toNum (jor (jmax0 v) (.num 1))) (.num 0) = true := by
  unfold jmax0
  cases hv : toNum v with
  | num x =>
    simp only [jor, truthy, toNum]
    by_cases hx : max 0 x = 0
    · simp [hx, jsGt, toNum]
    · have : (0 : ℚ) < max 0 x := lt_of_le_of_ne (le_max_left 0 x) (Ne.symm hx)
      simp [hx, jsGt, toNum, this]
  | undef => simp [jor, truthy, jsGt, toNum]
  | jnull => simp [jor, truthy, jsGt, toNum]
  | nan => simp [jor, truthy, jsGt, toNum]
  | str s => simp [jor, truthy, jsGt, toNum]

/-- `changeQty`'s trailing filter accepts every line whose `qty` is a
number `≥ 1`. -/
theorem filter_accepts_ge_one {x : Item} (h1 : isNum x.qty = true)
    (h2 : 1 ≤ numVal x.qty) :
    jsGt (toNum (jor x.qty (.num 1))) (.num 0) = true := by
  rw [isNum_eq_num h1]
  have hne : numVal x.qty ≠ 0 := by positivity
  have hpos : (0 : ℚ) < numVal x.qty := by positivity
  simp [jor, truthy, toNum, jsGt, hne, hpos]

/-! ## Claim theorems -/

/-- C1 (code bug evaluation): starting from the cart
`[{ id: 1, name: "A", price: 10, qty: 1 }]`, whose only item has
quantity `1 ≥ 1`, the call `changeQty(1, -1)` drives the quantity to
`0` but leaves the line in the cart with `qty = 0` instead of removing
it, and so does `setQty(1, 0)`: the trailing filter
`Number(x.qty || 1) > 0` evaluates `0 || 1` to `1` and never discards
a zero-quantity line, contradicting the claimed invariant (and the
source's own `// supprime si 0` comment). -/
theorem changeQty_setQty_zero_line_persists :
    changeQty (.num 1) (.num (-1)) [itemA] = [{ itemA with qty := .num 0 }] ∧
    setQty (.num 1) (.num 0) [itemA] = [{ itemA with qty := .num 0 }] ∧
    ({ itemA with qty := .num 0 }).qty = .num 0 ∧
    numVal ({ itemA with qty := .num 0 }).qty < 1 := by
  refine ⟨?_, ?_, rfl, by simp [numVal]⟩
  · simp [changeQty, itemA, truthy, keyOf, coalesce, strictEq, jor, toNum, jsAdd, jmax0, jsGt]
  · simp [setQty, itemA, truthy, keyOf, coalesce, strictEq, jor, toNum, jsAdd, jmax0, jsGt]

/-- C2 (code bug evaluation): from the empty cart,
`add({id:7, name:"X", price:10}, 3)` followed by `changeQty(7, -3)`
does not give the empty cart: the line stays present with
`qty = 0`, because `changeQty`'s removal filter `Number(x.qty || 1) > 0`
treats the quantity `0` as `1`. -/
theorem add_then_changeQty_leaves_zero_line :
    changeQty (.num 7) (.num (-3)) (addToCart prod7 (.num 3) []) =
      [{ prod7 with qty := .num 0 }] ∧
    (changeQty (.num 7) (.num (-3)) (addToCart prod7 (.num 3) [])).length = 1 := by
  have h : changeQty (.num 7) (.num (-3)) (addToCart prod7 (.num 3) []) =
      [{ prod7 with qty := .num 0 }] := by
    simp [addToCart, qtyDefault, changeQty, prod7, truthy, keyOf, coalesce, strictEq, jor,
      toNum, jsAdd, jmax0, jsGt, jsLe, List.findIdx?]
    norm_num
  exact ⟨h, by rw [h]; rfl⟩

/-- C8: a product with no `id` and `name: "Widget"` is keyed by
`"Widget"`; adding it twice (via `handleAdd`, and likewise via
`addToCart`) accumulates quantity `2` in a single cart entry instead
of creating two entries. -/
theorem key_fallback_single_entry :
    handleAdd widget (handleAdd widget []) = [widgetLine2] ∧
    (handleAdd widget (handleAdd widget [])).length = 1 ∧
    keyOf widgetLine2 = .str "Widget" ∧
    widgetLine2.qty = .num 2 ∧
    addToCart widget (.num 1) (addToCart widget (.num 1) []) =
      [{ widget with qty := .num 2 }] := by
  have h : handleAdd widget (handleAdd widget []) = [widgetLine2] := by
    simp [handleAdd, widget, widgetLine2, truthy, keyOf, coalesce, strictEq, jor, toNum, jsAdd,
      List.find?, jsToString]
    norm_num
  refine ⟨h, by rw [h]; rfl, rfl, rfl, ?_⟩
  simp [addToCart, qtyDefault, widget, truthy, keyOf, coalesce, strictEq, jor, toNum, jsAdd,
    jmax0, jsLe, List.findIdx?]
  norm_num

/-- C3: the free-shipping comparison is a strict `>` against `100`:
whenever the computed subtotal is exactly `100.00` the shipping fee is
`6.90`, and whenever it is a rational strictly above `100` (such as
`100.01`) the fee is `0`. -/
theorem shipping_strict_threshold (cart : List Item) :
    ((computeTotals cart).subtotal = .num 100 →
      (computeTotals cart).shipping = .num (69 / 10)) ∧
    (∀ s : ℚ, (computeTotals cart).subtotal = .num s → 100 < s →
      (computeTotals cart).shipping = .num 0) := by
  constructor
  · intro h
    rw [computeTotals_shipping_eq, h]
    simp [jsGt, toNum]
  · intro s h hs
    rw [computeTotals_shipping_eq, h]
    simp [jsGt, toNum, hs]

/-- C3 witness: a cart of one line at price 50 and quantity 2 has
subtotal exactly 100 and pays 6.90 shipping; one line at price 100.01
and quantity 1 has subtotal 100.01 and free shipping. -/
theorem shipping_strict_threshold_witness :
    (computeTotals [{ itemA with price := .num 50, qty := .num 2 }]).subtotal = .num 100 ∧
    (computeTotals [{ itemA with price := .num 50, qty := .num 2 }]).shipping =
      .num (69 / 10) ∧
    (computeTotals [{ itemA with price := .num (10001 / 100), qty := .num 1 }]).subtotal =
      .num (10001 / 100) ∧
    (computeTotals [{ itemA with price := .num (10001 / 100), qty := .num 1 }]).shipping =
      .num 0 := by
  have h1 : (computeTotals [{ itemA with price := .num 50, qty := .num 2 }]).subtotal =
      .num 100 := by
    simp [computeTotals, normLine, itemA, truthy, jor, toNum, jsAdd, jsMul]
    norm_num
  have h2 : (computeTotals [{ itemA with price := .num (10001 / 100), qty := .num 1 }]).subtotal =
      .num (10001 / 100) := by
    simp [computeTotals, normLine, itemA, truthy, jor, toNum, jsAdd, jsMul]
  exact ⟨h1, (shipping_strict_threshold _).1 h1, h2,
    (shipping_strict_threshold _).2 _ h2 (by norm_num)⟩

/-- C4: for every cart whose lines coerce to finite numbers, the
derived totals satisfy subtotal = Σ (unitPrice × quantity),
tax = subtotal × 0.20 and total = subtotal + tax + shippingFee; in
particular a subtotal of 50.00 yields tax 10.00 and
total 66.90. -/
theorem totals_derivation (cart : List Item) (h : NumericLines cart) :
    (computeTotals cart).subtotal = .num (subtotalSpec cart) ∧
    (computeTotals cart).tva = .num (subtotalSpec cart * (1 / 5)) ∧
    (computeTotals cart).total =
      .num (subtotalSpec cart + subtotalSpec cart * (1 / 5) +
        (if 100 < subtotalSpec cart then 0 else 69 / 10)) ∧
    (subtotalSpec cart = 50 →
      (computeTotals cart).tva = .num 10 ∧
      (computeTotals cart).total = .num (669 / 10)) := by
  have hsub := computeTotals_subtotal cart h
  have htva : (computeTotals cart).tva = .num (subtotalSpec cart * (1 / 5)) := by
    rw [computeTotals_tva_eq, hsub]
    simp [jsMul, toNum]
  have hship : (computeTotals cart).shipping =
      .num (if 100 < subtotalSpec cart then 0 else 69 / 10) := by
    rw [computeTotals_shipping_eq, hsub]
    by_cases hc : 100 < subtotalSpec cart <;> simp [jsGt, toNum, hc]
  have htot : (computeTotals cart).total =
      .num (subtotalSpec cart + subtotalSpec cart * (1 / 5) +
        (if 100 < subtotalSpec cart then 0 else 69 / 10)) := by
    rw [computeTotals_total_eq, hsub, htva, hship]
    simp [jsAdd, toNum]
  refine ⟨hsub, htva, htot, fun h50 => ⟨?_, ?_⟩⟩
  · rw [htva, h50]
    norm_num
  · rw [htot, h50]
    norm_num

/-- C4 witness: the one-line cart at price 25 and quantity 2 has
numeric lines, spec subtotal 50, tax 10 and total 66.90. -/
theorem totals_derivation_witness :
    NumericLines [{ itemA with price := .num 25, qty := .num 2 }] ∧
    subtotalSpec [{ itemA with price := .num 25, qty := .num 2 }] = 50 ∧
    (computeTotals [{ itemA with price := .num 25, qty := .num 2 }]).tva = .num 10 ∧
    (computeTotals [{ itemA with price := .num 25, qty := .num 2 }]).total =
      .num (669 / 10) := by
  have hn : NumericLines [{ itemA with price := .num 25, qty := .num 2 }] := by
    intro x hx
    simp only [List.mem_singleton] at hx
    subst hx
    refine ⟨?_, ?_⟩ <;> simp [itemA, jor, truthy, toNum, isNum]
  have h50 : subtotalSpec [{ itemA with price := .num 25, qty := .num 2 }] = 50 := by
    simp [subtotalSpec, linePrice, lineQty, itemA, jor, truthy, toNum, numVal]
    norm_num
  exact ⟨hn, h50, (totals_derivation _ hn).2.2.2 h50⟩

/-- C5 counterexample: `addToCart` does not coerce the price at
insertion — adding the product `{ id:1, name:"P", price:"abc" }` with
quantity 1 stores the line with `price = "abc"` verbatim (not `0`),
and the totals derivation then turns it into `NaN`
(`Number("abc" || 0) = NaN`), so the subtotal becomes `NaN` rather
than the claimed non-`NaN` value. -/
theorem addToCart_stores_uncoerced_price :
    addToCart pAbc (.num 1) [] = [{ pAbc with qty := .num 1 }] ∧
    ({ pAbc with qty := .num 1 }).price = .str "abc" ∧
    (computeTotals (addToCart pAbc (.num 1) [])).subtotal = .nan := by
  have h : addToCart pAbc (.num 1) [] = [{ pAbc with qty := .num 1 }] := by
    simp [addToCart, qtyDefault, pAbc, truthy, keyOf, coalesce, strictEq, jor, toNum, jsAdd,
      jmax0, jsLe, List.findIdx?]
  refine ⟨h, rfl, ?_⟩
  rw [h]
  simp [computeTotals, normLine, pAbc, truthy, jor, toNum, jsAdd, jsMul]
  decide

/-- C5 amended: a `qty` argument of `undefined` defaults to `1`
(`qty = 1` default parameter); writing `q'` for the defaulted
argument: on an existing key, `addToCart` increments the quantity by
the numeric coercion of `q'` clamped at zero (removing the line when
the clamp lands exactly on 0); on a missing key a `q' <= 0` call is a
no-op, and a `q' > 0` call appends `{ ...item, qty: Number(q') }` —
with the product's `price` stored verbatim, not coerced (coercion to
a number, with falsy values becoming 0, happens in `handleAdd` at
insertion and in `computeTotals` at read). -/
theorem addToCart_amended_behavior (item : Item) (qty : JVal) (cart : List Item) :
    addToCart item .undef cart = addToCart item (.num 1) cart ∧
    (cart.findIdx? (fun x => strictEq (keyOf x) (coalesce item.id item.name)) = none →
      (jsLe (qtyDefault qty) (.num 0) = true → addToCart item qty cart = cart) ∧
      (jsLe (qtyDefault qty) (.num 0) = false →
        addToCart item qty cart =
          cart ++ [{ item with qty := toNum (qtyDefault qty) }] ∧
        ({ item with qty := toNum (qtyDefault qty) }).price = item.price)) ∧
    (∀ i cur,
      cart.findIdx? (fun x => strictEq (keyOf x) (coalesce item.id item.name)) = some i →
      cart[i]? = some cur →
      ∀ c d : ℚ, cur.qty = .num c → c ≠ 0 →
        toNum (jor (qtyDefault qty) (.num 0)) = .num d →
        (max 0 (c + d) = 0 → addToCart item qty cart = cart.eraseIdx i) ∧
        (max 0 (c + d) ≠ 0 →
          addToCart item qty cart = cart.set i { cur with qty := .num (max 0 (c + d)) } ∧
          0 ≤ max 0 (c + d))) := by
  refine ⟨rfl, ?_, ?_⟩
  · intro hnone
    constructor
    · intro hle
      simp only [addToCart, hnone, hle]
      simp
    · intro hle
      refine ⟨?_, rfl⟩
      simp only [addToCart, hnone, hle]
      simp
  · intro i cur hidx hget c d hc hcne hd
    have h1 : jor cur.qty (.num 1) = .num c := by
      simp [jor, truthy, hc, hcne]
    have hnext :
        jmax0 (jsAdd (toNum (jor cur.qty (.num 1)))
            (toNum (jor (qtyDefault qty) (.num 0)))) =
          .num (max 0 (c + d)) := by
      rw [h1, hd]
      simp [toNum, jsAdd, jmax0]
    constructor
    · intro hmax
      simp only [addToCart, hidx, hget, hnext]
      simp [strictEq, hmax]
    · intro hmax
      refine ⟨?_, le_max_left 0 (c + d)⟩
      simp only [addToCart, hidx, hget, hnext]
      simp [strictEq, hmax]

/-- C5 amended witness: on the empty cart, adding `widget` with
quantity 0 is a no-op and with quantity 2 inserts the line verbatim;
on a cart already holding `itemA` (quantity 1), adding with quantity
−1 drives the clamp to 0 and removes the line. -/
theorem addToCart_amended_behavior_witness :
    addToCart widget .undef [] = addToCart widget (.num 1) [] ∧
    addToCart widget (.num 0) [] = [] ∧
    addToCart widget (.num 2) [] = [{ widget with qty := .num 2 }] ∧
    addToCart itemA (.num (-1)) [itemA] = [] := by
  refine ⟨(addToCart_amended_behavior widget .undef []).1, ?_, ?_, ?_⟩
  · exact ((addToCart_amended_behavior widget (.num 0) []).2.1 rfl).1 (by decide)
  · exact (((addToCart_amended_behavior widget (.num 2) []).2.1 rfl).2 (by decide)).1
  · have h := ((addToCart_amended_behavior itemA (.num (-1)) [itemA]).2.2 0 itemA
      (by decide) rfl 1 (-1) rfl (by norm_num) (by decide)).1 (by norm_num)
    exact h

/-- C6: if the order-creation request fails — non-success HTTP status
(`!res.ok`) or a body whose `ok` field is falsy (in particular
`ok === false`) — the submit leaves the cart untouched and does not
complete the order; the cart is cleared (through
`onPaid → handlePaymentSuccess → onOrderCompleted = clearCart`) only
when the response is a confirmed success (`res.ok` and a truthy
`data.ok`). -/
theorem checkout_failure_keeps_cart (form : CardForm) (userId : JVal)
    (items : List Item) (total : JVal) (resp : OrderResponse) (cart : List Item)
    (hfail : resp.ok = false ∨ truthy resp.dataOk = false) :
    checkoutSubmit form userId items total resp cart = (cart, false) ∧
    ∀ resp' : OrderResponse,
      (checkoutSubmit form userId items total resp' cart).2 = true →
      resp'.ok = true ∧ truthy resp'.dataOk = true ∧
      (checkoutSubmit form userId items total resp' cart).1 = clearCart cart := by
  constructor
  · unfold checkoutSubmit
    rcases hfail with h | h <;> split_ifs <;> simp_all
  · intro resp' htrue
    unfold checkoutSubmit at htrue ⊢
    split_ifs at htrue ⊢
    simp_all [clearCart]

/-- C6 witness: with a filled form, user 3, the one-line cart and a
total of 66.90, an HTTP failure response leaves the cart as it was
and does not complete the order, while a confirmed success response
completes the order. -/
theorem checkout_failure_keeps_cart_witness :
    checkoutSubmit ⟨"N", "4242", "12/30", "123"⟩ (.num 3) [itemA] (.num (669 / 10))
      ⟨false, .num 1⟩ [itemA] = ([itemA], false) ∧
    (checkoutSubmit ⟨"N", "4242", "12/30", "123"⟩ (.num 3) [itemA] (.num (669 / 10))
      ⟨true, .num 1⟩ [itemA]).2 = true := by
  constructor
  · exact (checkout_failure_keeps_cart ⟨"N", "4242", "12/30", "123"⟩ (.num 3) [itemA]
      (.num (669 / 10)) ⟨false, .num 1⟩ [itemA] (Or.inl rfl)).1
  · simp [checkoutSubmit, truthy, clearCart]

/-- C7: `removeMany(keys)` removes, in one state transition (a single
pure update of the list), exactly the lines whose stringified key
(`String(x.id ?? x.name)`) occurs among the stringified `keys`, so
numeric and string forms of the same key match; it keeps the
survivors in order (sublist), `removeMany([])` is a no-op, and on a
cart keyed `[1,2,3]` the call `removeMany([1,3])` leaves exactly the
line keyed `2`. -/
theorem removeMany_batch_spec (ids : List JVal) (cart : List Item) (a b c : Item)
    (ha : keyOf a = .num 1) (hb : keyOf b = .num 2) (hc : keyOf c = .num 3) :
    removeMany [] cart = cart ∧
    (∀ x, x ∈ removeMany ids cart ↔
      x ∈ cart ∧ (ids.map jsToString).contains (jsToString (keyOf x)) = false) ∧
    (removeMany ids cart).Sublist cart ∧
    removeMany [.num 1, .num 3] [a, b, c] = [b] := by
  refine ⟨rfl, ?_, ?_, ?_⟩
  · intro x
    unfold removeMany
    by_cases hlen : ids.length = 0
    · have hnil : ids = [] := List.length_eq_zero.mp hlen
      subst hnil
      simp
    · simp [hlen, List.mem_filter]
  · unfold removeMany
    by_cases hlen : ids.length = 0
    · simp [hlen]
    · simp only [hlen, if_neg, ite_false]
      exact List.filter_sublist _
  · simp [removeMany, ha, hb, hc, jsToString_num_one, jsToString_num_two,
      jsToString_num_three, List.contains]

/-- C7 witness: instantiated at the numerically keyed lines
`itemK 1`, `itemK 2`, `itemK 3`: the empty batch is a no-op and
`removeMany([1,3])` leaves exactly the line keyed 2. -/
theorem removeMany_batch_spec_witness :
    keyOf (itemK 1) = .num 1 ∧ keyOf (itemK 2) = .num 2 ∧ keyOf (itemK 3) = .num 3 ∧
    removeMany [] [itemA] = [itemA] ∧
    removeMany [.num 1, .num 3] [itemK 1, itemK 2, itemK 3] = [itemK 2] := by
  have h := removeMany_batch_spec [.str "1"] [itemA] (itemK 1) (itemK 2) (itemK 3)
    rfl rfl rfl
  exact ⟨rfl, rfl, rfl, h.1, h.2.2.2⟩

/-- C9: single and batch removal disagree on key types — on a cart
whose keys are all numbers, `removeItem("1")` (strict `===`, no
normalization) leaves the cart unchanged, while `removeMany(["1"])`
removes every line whose key is the number `1`, because `removeMany`
stringifies both sides before comparing. -/
theorem removeItem_vs_removeMany_key_types (cart : List Item)
    (h : ∀ x ∈ cart, isNum (keyOf x) = true) :
    removeItem (.str "1") cart = cart ∧
    ∀ x ∈ cart, keyOf x = .num 1 → x ∉ removeMany [.str "1"] cart := by
  constructor
  · unfold removeItem
    rw [List.filter_eq_self]
    intro x hx
    have hx' := h x hx
    cases hk : keyOf x with
    | num q => simp [strictEq]
    | undef => rw [hk] at hx'; simp [isNum] at hx'
    | jnull => rw [hk] at hx'; simp [isNum] at hx'
    | nan => rw [hk] at hx'; simp [isNum] at hx'
    | str s => rw [hk] at hx'; simp [isNum] at hx'
  · intro x hx hk hmem
    unfold removeMany at hmem
    simp only [List.length_singleton] at hmem
    rw [if_neg (by norm_num)] at hmem
    have hpred := (List.mem_filter.mp hmem).2
    rw [hk, jsToString_num_one] at hpred
    simp [jsToString] at hpred

/-- C9 witness: the cart `[itemA]` (its only key is the number 1) is
untouched by `removeItem("1")`, and its line is removed by
`removeMany(["1"])`. -/
theorem removeItem_vs_removeMany_key_types_witness :
    removeItem (.str "1") [itemA] = [itemA] ∧
    itemA ∉ removeMany [.str "1"] [itemA] := by
  have h := removeItem_vs_removeMany_key_types [itemA]
    (by intro x hx; simp only [List.mem_singleton] at hx; subst hx; rfl)
  exact ⟨h.1, h.2 itemA (List.mem_singleton.mpr rfl) rfl⟩

/-- C10: on a cart whose quantities are all numbers `≥ 1`, with a
truthy key and a nonzero delta, `changeQty` preserves the length and
relative order of the cart, leaves `id`, `name`, `price`, `image_url`
and `description` of every line unchanged (only `qty` may change),
and leaves every line whose key differs from `id` entirely
untouched. -/
theorem changeQty_frame (cart : List Item) (id delta : JVal)
    (hq : ∀ x ∈ cart, isNum x.qty = true ∧ 1 ≤ numVal x.qty)
    (hid : truthy id = true) (_hdelta : delta ≠ .num 0) :
    (changeQty id delta cart).length = cart.length ∧
    ∀ (i : ℕ) (h1 : i < (changeQty id delta cart).length) (h2 : i < cart.length),
      ((changeQty id delta cart).get ⟨i, h1⟩).id = (cart.get ⟨i, h2⟩).id ∧
      ((changeQty id delta cart).get ⟨i, h1⟩).name = (cart.get ⟨i, h2⟩).name ∧
      ((changeQty id delta cart).get ⟨i, h1⟩).price = (cart.get ⟨i, h2⟩).price ∧
      ((changeQty id delta cart).get ⟨i, h1⟩).image_url = (cart.get ⟨i, h2⟩).image_url ∧
      ((changeQty id delta cart).get ⟨i, h1⟩).description =
        (cart.get ⟨i, h2⟩).description ∧
      (strictEq (keyOf (cart.get ⟨i, h2⟩)) id = false →
        (changeQty id delta cart).get ⟨i, h1⟩ = cart.get ⟨i, h2⟩) := by
  cases htd : truthy delta with
  | false =>
    have hcq : changeQty id delta cart = cart := by
      simp [changeQty, htd]
    constructor
    · rw [hcq]
    · intro i h1 h2
      have hx := List.get_of_eq hcq ⟨i, h1⟩
      rw [hx]
      exact ⟨rfl, rfl, rfl, rfl, rfl, fun _ => rfl⟩
  | true =>
    have hmap : changeQty id delta cart = cart.map (fun x =>
        if strictEq (keyOf x) id then
          { x with qty := jmax0 (jsAdd (toNum (jor x.qty (.num 1))) (toNum delta)) }
        else x) := by
      simp only [changeQty, hid, htd, Bool.and_self, if_true]
      rw [List.filter_eq_self.mpr]
      intro y hy
      obtain ⟨x, hx, rfl⟩ := List.mem_map.mp hy
      by_cases hmatch : strictEq (keyOf x) id = true
      · simp only [hmatch, if_true]
        exact filter_accepts_jmax0 _
      · simp only [hmatch, if_false, Bool.false_eq_true]
        exact filter_accepts_ge_one (hq x hx).1 (hq x hx).2
    have hfields : ∀ x : Item,
        (if strictEq (keyOf x) id then
          { x with qty := jmax0 (jsAdd (toNum (jor x.qty (.num 1))) (toNum delta)) }
         else x).id = x.id ∧
        (if strictEq (keyOf x) id then
          { x with qty := jmax0 (jsAdd (toNum (jor x.qty (.num 1))) (toNum delta)) }
         else x).name = x.name ∧
        (if strictEq (keyOf x) id then
          { x with qty := jmax0 (jsAdd (toNum (jor x.qty (.num 1))) (toNum delta)) }
         else x).price = x.price ∧
        (if strictEq (keyOf x) id then
          { x with qty := jmax0 (jsAdd (toNum (jor x.qty (.num 1))) (toNum delta)) }
         else x).image_url = x.image_url ∧
        (if strictEq (keyOf x) id then
          { x with qty := jmax0 (jsAdd (toNum (jor x.qty (.num 1))) (toNum delta)) }
         else x).description = x.description ∧
        (strictEq (keyOf x) id = false →
          (if strictEq (keyOf x) id then
            { x with qty := jmax0 (jsAdd (toNum (jor x.qty (.num 1))) (toNum delta)) }
           else x) = x) := by
      intro x
      by_cases hm : strictEq (keyOf x) id = true
      · rw [if_pos hm]
        exact ⟨rfl, rfl, rfl, rfl, rfl, fun habs => absurd hm (by simp [habs])⟩
      · rw [if_neg hm]
        exact ⟨rfl, rfl, rfl, rfl, rfl, fun _ => rfl⟩
    constructor
    · rw [hmap, List.length_map]
    · intro i h1 h2
      have hget : (changeQty id delta cart).get ⟨i, h1⟩ =
          (fun x =>
            if strictEq (keyOf x) id then
              { x with qty := jmax0 (jsAdd (toNum (jor x.qty (.num 1))) (toNum delta)) }
            else x) (cart.get ⟨i, h2⟩) := by
        rw [List.get_of_eq hmap ⟨i, h1⟩]
        simp only [List.get_eq_getElem, List.getElem_map]
      rw [hget]
      exact hfields (cart.get ⟨i, h2⟩)

/-- C10 witness: on the cart `[itemA]` (quantity 1), with key `1` and
delta `5`, `changeQty` keeps the length (no line appears or
disappears). -/
theorem changeQty_frame_witness :
    (∀ x ∈ [itemA], isNum x.qty = true ∧ 1 ≤ numVal x.qty) ∧
    truthy (JVal.num 1) = true ∧ (JVal.num 5) ≠ JVal.num 0 ∧
    (changeQty (.num 1) (.num 5) [itemA]).length = [itemA].length := by
  have hq : ∀ x ∈ [itemA], isNum x.qty = true ∧ 1 ≤ numVal x.qty := by
    intro x hx
    simp only [List.mem_singleton] at hx
    subst hx
    exact ⟨rfl, by norm_num [itemA, numVal]⟩
  exact ⟨hq, by decide, by decide,
    (changeQty_frame [itemA] (.num 1) (.num 5) hq (by decide) (by decide)).1⟩

end PSL
